import Mathlib

/-!
Shallow embedding of `examples/named_entity_recognition/ner_wikigold_transformer.ipynb`.

The notebook is a linear pipeline of calls into external libraries
(`utils_nlp`, `sklearn`, `torch`, `seqeval`, `scrapbook`).  External library
calls are modelled as fields of a `Libs` record, each returning
`Except Err _` so that a raised exception is an `Except.error`.  The
notebook's own code (configuration, sub-sampling glue, the metrics cell) is
translated directly.  Each run produces a trace of events, one per pipeline
step, used to settle ordering and concurrency claims.
-/

set_option autoImplicit false

namespace NerNotebook

/-- Python exception values, abstracted to their message string. -/
abbrev Err := String

/-- A token, as parsed from the CoNLL file. -/
abbrev Token := String

/-- A sentence: the list of its tokens. -/
abbrev Sentence := List Token

/-- The label sequence paired with one sentence. -/
abbrev Labels := List String

/-! ## Python semantics helpers

String functions from the Lean core library (`String.splitOn`,
`String.trim`, `String.toLower`) are defined by well-founded recursion and
do not reduce inside the kernel, so the Python string operations are
modelled by structurally recursive functions on `List Char`; likewise the
rational arithmetic stays on `mkRat` and integer operations. -/

/-- Split a character list at every character satisfying `p`; like Python
`str.split(sep)`, empty fields are kept. -/
def splitPChar (p : Char → Bool) : List Char → List (List Char)
  | [] => [[]]
  | c :: rest =>
    let r := splitPChar p rest
    if p c then [] :: r
    else
      match r with
      | [] => [[c]]
      | h :: t => (c :: h) :: t

/-- Python `s.split(sep)` for a one-character separator. -/
def pySplitChar (s : String) (sep : Char) : List String :=
  (splitPChar (fun c => c = sep) s.data).map String.mk

/-- Strip leading and trailing whitespace, like Python `str.strip()`. -/
def trimChars (cs : List Char) : List Char :=
  ((cs.dropWhile Char.isWhitespace).reverse.dropWhile Char.isWhitespace).reverse

/-- `lst[i]` for each `i` in `idxs`, dropping out-of-range indices.  With all
indices in range this is exactly numpy/`random.sample`-style index selection. -/
def indexSelect {α : Type} (idxs : List Nat) (pop : List α) : List α :=
  idxs.filterMap (fun i => pop.get? i)

/-- Python `a, b = list(zip(*pairs))`: unzip, raising `ValueError` when
`pairs` is empty (destructuring an empty list fails). -/
def pyUnzip {α β : Type} (l : List (α × β)) : Except Err (List α × List β) :=
  match l with
  | [] => .error ("ValueError: not enough values to unpack")
  | _ => .ok l.unzip

/-- Python `s.split(sep)[-1]` for a single-character separator: the split
is never empty, so take the last element. -/
def pySplitLast (s : String) (sep : Char) : String :=
  (pySplitChar s sep).getLastD ""

/-- Python `s.split()` with no argument: split on whitespace runs,
discarding empty fields. -/
def pySplitWS (s : String) : List String :=
  ((splitPChar Char.isWhitespace s.data).map String.mk).filter (fun t => t ≠ "")

/-- Python `lst[-2]`: the second-to-last element, `IndexError` when the list
has fewer than two elements. -/
def pyNeg2 {α : Type} (l : List α) : Except Err α :=
  match l.get? (l.length - 2), l.length with
  | some a, _ + 2 => .ok a
  | _, _ => .error ("IndexError: list index out of range")

/-- Python `lst[i]` for `i ≥ 0`: `IndexError` when out of range. -/
def pyIndex {α : Type} (l : List α) (i : Nat) : Except Err α :=
  match l.get? i with
  | some a => .ok a
  | none => .error ("IndexError: list index out of range")

/-- `os.path.join(a, b)` for the simple two-component case. -/
def pathJoin (a b : String) : String :=
  a ++ "/" ++ b

/-! ### A model of Python `float(...)` on finite decimal strings -/

/-- Value of a nonempty all-digit string, `none` otherwise. -/
def parseNatDigits (t : String) : Option Nat :=
  if !t.data.isEmpty && t.data.all Char.isDigit then
    some (t.data.foldl (fun a c => a * 10 + (c.toNat - 48)) 0)
  else
    none

/-- Unsigned decimal mantissa `"12"`, `"12."`, `".5"`, `"3.14"`, as an
exact numerator/denominator pair (denominator a power of ten). -/
def parseMantissaParts (t : String) : Option (Nat × Nat) :=
  match pySplitChar t '.' with
  | [a] => (parseNatDigits a).map (fun n => (n, 1))
  | [a, b] =>
    if a.data.isEmpty && b.data.isEmpty then none
    else
      let ad := if a.data.isEmpty then some 0 else parseNatDigits a
      let bd := if b.data.isEmpty then some 0 else parseNatDigits b
      match ad, bd with
      | some x, some y => some (x * 10 ^ b.data.length + y, 10 ^ b.data.length)
      | _, _ => none
  | _ => none

/-- A signed integer exponent. -/
def parseExponent (t : String) : Option ℤ :=
  match t.data with
  | '-' :: rest => (parseNatDigits (String.mk rest)).map (fun n => -(n : ℤ))
  | '+' :: rest => (parseNatDigits (String.mk rest)).map (fun n => (n : ℤ))
  | _ => (parseNatDigits t).map (fun n => (n : ℤ))

/-- Model of Python `float(s)` on finite decimal notation: surrounding
whitespace stripped, optional sign, decimal mantissa, optional `e`/`E`
exponent.  (`inf`/`nan` are not representable in `ℚ` and never occur in a
`classification_report` cell.) -/
def pyFloat (s : String) : Option ℚ :=
  let t := String.mk ((trimChars s.data).map Char.toLower)
  let (neg, t2) :=
    match t.data with
    | '-' :: rest => (true, String.mk rest)
    | '+' :: rest => (false, String.mk rest)
    | _ => (false, t)
  match pySplitChar t2 'e' with
  | [m] => do
    let (nm, dn) ← parseMantissaParts m
    some (mkRat (if neg then -(nm : ℤ) else (nm : ℤ)) dn)
  | [m, ex] => do
    let (nm, dn) ← parseMantissaParts m
    let ev ← parseExponent ex
    some (mkRat ((if neg then -(nm : ℤ) else (nm : ℤ)) * (10 : ℤ) ^ ev.toNat)
      (dn * 10 ^ (-ev).toNat))
  | _ => none

/-! ## Configuration (notebook cells 6-7) -/

/-- The configuration variables assigned in the notebook's configuration
cell.  `SAMPLE_RATIO` is spelled `sampleRatio` (and likewise the other
fields are camel-cased) to satisfy identifier constraints; each field
carries the notebook value noted in `configuration`. -/
structure Config where
  quickRun : Bool
  dataUrl : String
  testDataFraction : ℚ
  sampleRatio : ℚ
  randomSeed : Nat
  numTrainEpochs : Nat
  modelName : String
  doLowerCase : Bool
  maxSeqLength : Nat
  trailingPieceTag : String
  batchSize : Nat
deriving DecidableEq

/-- The notebook's configuration cell: constants `DATA_URL`,
`TEST_DATA_FRACTION = 0.3`, `SAMPLE_RATIO = 1`, `RANDOM_SEED = 100`,
`NUM_TRAIN_EPOCHS = 5`, `MODEL_NAME = "bert-base-cased"`,
`DO_LOWER_CASE = False`, `MAX_SEQ_LENGTH = 200`,
`TRAILING_PIECE_TAG = "X"`, `BATCH_SIZE = 16`, followed by the
`if QUICK_RUN:` update setting `SAMPLE_RATIO = 0.1` and
`NUM_TRAIN_EPOCHS = 1`. -/
def configuration (quickRun : Bool) : Config :=
  let base : Config :=
    { quickRun := quickRun
      dataUrl := "https://raw.githubusercontent.com/juand-r/entity-recognition-datasets" ++
        "/master/data/wikigold/CONLL-format/data/wikigold.conll.txt"
      testDataFraction := mkRat 3 10
      sampleRatio := 1
      randomSeed := 100
      numTrainEpochs := 5
      modelName := "bert-base-cased"
      doLowerCase := false
      maxSeqLength := 200
      trailingPieceTag := "X"
      batchSize := 16 }
  if quickRun then
    { base with sampleRatio := mkRat 1 10, numTrainEpochs := 1 }
  else
    base

/-- `sample_size = int(SAMPLE_RATIO * len(sentence_list))`, computed on the
numerator/denominator of the (nonnegative) ratio: Python `int()` truncates
toward zero, which for a nonnegative rational is exactly this floor
division. -/
def sampleSize (ratio : ℚ) (n : Nat) : Nat :=
  ratio.num.toNat * n / ratio.den

/-- sklearn's test-set size for a float `test_size`:
`n_test = ceil(test_size * n)`, computed as a ceiling division on the
numerator/denominator of the (nonnegative) fraction. -/
def testSetSize (fraction : ℚ) (n : Nat) : Nat :=
  (fraction.num.toNat * n + (fraction.den - 1)) / fraction.den

/-- sklearn `train_test_split(xs, ys, test_size=…, random_state=…)` after
the shuffle permutation `perm` has been drawn: the first `nTest` permuted
indices form the test set, the rest the training set; returns
`(X_train, X_test, y_train, y_test)`. -/
def trainTestSplit {α β : Type} (perm : List Nat) (nTest : Nat)
    (xs : List α) (ys : List β) : List α × List α × List β × List β :=
  let testIdx := perm.take nTest
  let trainIdx := perm.drop nTest
  (indexSelect trainIdx xs, indexSelect testIdx xs,
    indexSelect trainIdx ys, indexSelect testIdx ys)

/-! ## Opaque handles produced by the external libraries -/

/-- Handle to a `TokenClassificationProcessor` instance. -/
structure Processor where
  id : Nat
deriving DecidableEq

/-- Handle to a PyTorch dataset produced by `processor.preprocess`. -/
structure Dataset where
  id : Nat
deriving DecidableEq

/-- Handle to a PyTorch dataloader produced by `dataloader_from_dataset`. -/
structure Loader where
  id : Nat
deriving DecidableEq

/-- Handle to a `TokenClassifier` model (possibly fine-tuned). -/
structure Model where
  id : Nat
deriving DecidableEq

/-- Handle to the raw prediction ndarray returned by `model.predict`. -/
structure Preds where
  id : Nat
deriving DecidableEq

/-- The label map built by `TokenClassificationProcessor.create_label_map`. -/
abbrev LabelMap := List (String × Nat)

/-- The keyword arguments of `processor.preprocess`. -/
structure PreprocessArgs where
  text : List Sentence
  maxLen : Nat
  labels : Option (List Labels)
  labelMap : LabelMap
  trailingPieceTag : String
deriving DecidableEq

/-- The keyword arguments of `model.fit` as passed by the notebook. -/
structure FitArgs where
  numEpochs : Nat
  numGpus : Option Nat
  localRank : ℤ
  weightDecay : ℚ
  learningRate : ℚ
  adamEpsilon : ℚ
  warmupSteps : Nat
  verbose : Bool
  seed : Nat
deriving DecidableEq

/-- The behaviour of every external library function the notebook calls.
Each fallible call returns `Except Err _`; `sampleIdx` and `permFn` model
the index choices drawn by `random.sample` and by sklearn's shuffle from
the seeded random state. -/
structure Libs where
  maybeDownload : String → String → String → Except Err String
  readConllFile : String → Except Err (List Sentence × List Labels)
  sampleIdx : Nat → Nat → Nat → List Nat
  permFn : Nat → Nat → List Nat
  processorCtor : String → Bool → String → Except Err Processor
  createLabelMap : List Labels → String → LabelMap
  preprocess : Processor → PreprocessArgs → Except Err Dataset
  dataloaderFromDataset : Dataset → Nat → Option Nat → Bool → Bool → Except Err Loader
  tokenClassifier : String → Nat → String → Except Err Model
  fit : Model → Loader → FitArgs → Except Err Model
  predict : Model → Loader → Option Nat → Bool → Except Err Preds
  getTrueTestLabels : Model → LabelMap → Dataset → Except Err (List Labels)
  getPredictedTokenLabels : Model → Preds → LabelMap → Dataset → Except Err (List Labels)
  classificationReport : List Labels → List Labels → Nat → Except Err String

/-! ## Trace events -/

/-- One event per pipeline step of the notebook, emitted at the statement
that performs the step.  The last five constructors are concurrency
primitives the notebook could in principle use; the trace theorems show it
never emits them. -/
inductive Ev where
  | configStep (quickRun : Bool)
  | download (url fileName dest : String)
  | parseConll (file : String)
  | split (nTest randomState : Nat)
  | wrapDataset
  | wrapLoader
  | instantiate (modelName : String) (numLabels : Nat)
  | fitCall (numEpochs seed : Nat) (loader : Loader)
  | predictCall (loader : Loader)
  | metrics
  | printExamples
  | glueMetrics
  | threadCreate
  | lockAcquire
  | channelOp
  | cancelToken
  | backpressure
deriving DecidableEq

/-- The step kind of an event, forgetting its arguments. -/
inductive StepKind where
  | configStep
  | download
  | parseConll
  | split
  | wrapDataset
  | wrapLoader
  | instantiate
  | fitCall
  | predictCall
  | metrics
  | printExamples
  | glueMetrics
  | threadCreate
  | lockAcquire
  | channelOp
  | cancelToken
  | backpressure
deriving DecidableEq

/-- Erase an event to its step kind. -/
def kindOf : Ev → StepKind
  | .configStep _ => .configStep
  | .download _ _ _ => .download
  | .parseConll _ => .parseConll
  | .split _ _ => .split
  | .wrapDataset => .wrapDataset
  | .wrapLoader => .wrapLoader
  | .instantiate _ _ => .instantiate
  | .fitCall _ _ _ => .fitCall
  | .predictCall _ => .predictCall
  | .metrics => .metrics
  | .printExamples => .printExamples
  | .glueMetrics => .glueMetrics
  | .threadCreate => .threadCreate
  | .lockAcquire => .lockAcquire
  | .channelOp => .channelOp
  | .cancelToken => .cancelToken
  | .backpressure => .backpressure

/-- The eleven pipeline steps listed by the specification, in its order. -/
def listedSteps : List StepKind :=
  [.configStep, .download, .parseConll, .split, .wrapDataset, .wrapLoader,
    .instantiate, .fitCall, .predictCall, .metrics, .printExamples]

/-- The step kinds that are concurrency primitives. -/
def concurrencyKinds : List StepKind :=
  [.threadCreate, .lockAcquire, .channelOp, .cancelToken, .backpressure]

/-- The shape of every event the notebook's own code can emit under
configuration `cfg`: pipeline steps only — never a concurrency
primitive — with every `fitCall` carrying `NUM_TRAIN_EPOCHS` and
`RANDOM_SEED` from the configuration and every `split` carrying
`RANDOM_SEED`. -/
def evOK (cfg : Config) : Ev → Prop
  | .configStep _ => True
  | .download _ _ _ => True
  | .parseConll _ => True
  | .split _ rs => rs = cfg.randomSeed
  | .wrapDataset => True
  | .wrapLoader => True
  | .instantiate _ _ => True
  | .fitCall ne s _ => ne = cfg.numTrainEpochs ∧ s = cfg.randomSeed
  | .predictCall _ => True
  | .metrics => True
  | .printExamples => True
  | .glueMetrics => True
  | .threadCreate => False
  | .lockAcquire => False
  | .channelOp => False
  | .cancelToken => False
  | .backpressure => False

/-- Is this event a call to `model.fit`? -/
def isFitEv : Ev → Bool
  | .fitCall _ _ _ => true
  | _ => false

/-- Index of the first occurrence of `k` in `l` (its length if absent). -/
def firstIdx (l : List StepKind) (k : StepKind) : Nat :=
  l.findIdx (fun x => decide (x = k))

/-! ## Cell 9: download, parse, sub-sample, train/test split -/

/-- The variables produced by notebook cell 9. -/
structure R9 where
  fileName : String
  dataFile : String
  sentenceList : List Sentence
  labelsList : List Labels
  trainSentenceList : List Sentence
  testSentenceList : List Sentence
  trainLabelsList : List Labels
  testLabelsList : List Labels
deriving DecidableEq

/-- Notebook cell 9.  `g0` is the `random` module's state on entry; the
cell executes `random.seed(RANDOM_SEED)`, which overwrites it, so the state
actually used by `random.sample` is `cfg.randomSeed`.  `random.sample`
raises `ValueError` when the requested sample is larger than the
population. -/
def cell9 (L : Libs) (cfg : Config) (g0 : Nat) (dataPath : String) :
    List Ev × Except Err R9 :=
  let _ := g0
  let fileName := pySplitLast cfg.dataUrl '/'
  match L.maybeDownload cfg.dataUrl fileName dataPath with
  | .error e => ([Ev.download cfg.dataUrl fileName dataPath], .error e)
  | .ok _ =>
    let dataFile := pathJoin dataPath fileName
    match L.readConllFile dataFile with
    | .error e =>
      ([Ev.download cfg.dataUrl fileName dataPath, Ev.parseConll dataFile], .error e)
    | .ok (sl, ll) =>
      let k := sampleSize cfg.sampleRatio sl.length
      let pairs := List.zip sl ll
      if k > pairs.length then
        ([Ev.download cfg.dataUrl fileName dataPath, Ev.parseConll dataFile],
          .error ("ValueError: Sample larger than population or is negative"))
      else
        let sampled := indexSelect (L.sampleIdx cfg.randomSeed pairs.length k) pairs
        match pyUnzip sampled with
        | .error e =>
          ([Ev.download cfg.dataUrl fileName dataPath, Ev.parseConll dataFile], .error e)
        | .ok (sl2, ll2) =>
          let n := sl2.length
          let nTest := testSetSize cfg.testDataFraction n
          let perm := L.permFn cfg.randomSeed n
          let tts := trainTestSplit perm nTest sl2 ll2
          ([Ev.download cfg.dataUrl fileName dataPath, Ev.parseConll dataFile,
              Ev.split nTest cfg.randomSeed],
            .ok { fileName := fileName, dataFile := dataFile,
                  sentenceList := sl2, labelsList := ll2,
                  trainSentenceList := tts.1, testSentenceList := tts.2.1,
                  trainLabelsList := tts.2.2.1, testLabelsList := tts.2.2.2 })

/-! ## Cell 14: processor, label map, datasets, dataloaders -/

/-- The variables produced by notebook cell 14. -/
structure R14 where
  processor : Processor
  labelMap : LabelMap
  trainDataset : Dataset
  trainDataloader : Loader
  testDataset : Dataset
  testDataloader : Loader
deriving DecidableEq

/-- Notebook cell 14: instantiate the processor, build the label map from
the (sub-sampled) `labels_list`, then preprocess and wrap train and test
splits, in the source order
`train_dataset, train_dataloader, test_dataset, test_dataloader`.
The train loader shuffles, the test loader does not. -/
def cell14 (L : Libs) (cfg : Config) (cacheDir : String) (r9 : R9) :
    List Ev × Except Err R14 :=
  match L.processorCtor cfg.modelName cfg.doLowerCase cacheDir with
  | .error e => ([], .error e)
  | .ok processor =>
    let labelMap := L.createLabelMap r9.labelsList cfg.trailingPieceTag
    match L.preprocess processor
        { text := r9.trainSentenceList, maxLen := cfg.maxSeqLength,
          labels := some r9.trainLabelsList, labelMap := labelMap,
          trailingPieceTag := cfg.trailingPieceTag } with
    | .error e => ([Ev.wrapDataset], .error e)
    | .ok trainDataset =>
      match L.dataloaderFromDataset trainDataset cfg.batchSize none true false with
      | .error e => ([Ev.wrapDataset, Ev.wrapLoader], .error e)
      | .ok trainDataloader =>
        match L.preprocess processor
            { text := r9.testSentenceList, maxLen := cfg.maxSeqLength,
              labels := some r9.testLabelsList, labelMap := labelMap,
              trailingPieceTag := cfg.trailingPieceTag } with
        | .error e => ([Ev.wrapDataset, Ev.wrapLoader, Ev.wrapDataset], .error e)
        | .ok testDataset =>
          match L.dataloaderFromDataset testDataset cfg.batchSize none false false with
          | .error e =>
            ([Ev.wrapDataset, Ev.wrapLoader, Ev.wrapDataset, Ev.wrapLoader], .error e)
          | .ok testDataloader =>
            ([Ev.wrapDataset, Ev.wrapLoader, Ev.wrapDataset, Ev.wrapLoader],
              .ok { processor := processor, labelMap := labelMap,
                    trainDataset := trainDataset, trainDataloader := trainDataloader,
                    testDataset := testDataset, testDataloader := testDataloader })

/-! ## Cell 16: instantiate the classifier and fine-tune it -/

/-- The keyword arguments the notebook passes to `model.fit`:
`num_epochs=NUM_TRAIN_EPOCHS, num_gpus=NUM_GPUS, local_rank=-1,
weight_decay=0.0, learning_rate=5e-5, adam_epsilon=1e-8, warmup_steps=0,
verbose=False, seed=RANDOM_SEED`. -/
def fitArgsOf (cfg : Config) : FitArgs :=
  { numEpochs := cfg.numTrainEpochs
    numGpus := none
    localRank := -1
    weightDecay := 0
    learningRate := mkRat 5 100000
    adamEpsilon := mkRat 1 100000000
    warmupSteps := 0
    verbose := false
    seed := cfg.randomSeed }

/-- Notebook cell 16: `TokenClassifier(model_name=…, num_labels=len(label_map),
cache_dir=…)` followed by `model.fit(train_dataloader=…, …)`.  Returns the
fine-tuned model handle. -/
def cell16 (L : Libs) (cfg : Config) (cacheDir : String) (r14 : R14) :
    List Ev × Except Err Model :=
  match L.tokenClassifier cfg.modelName r14.labelMap.length cacheDir with
  | .error e => ([Ev.instantiate cfg.modelName r14.labelMap.length], .error e)
  | .ok model =>
    match L.fit model r14.trainDataloader (fitArgsOf cfg) with
    | .error e =>
      ([Ev.instantiate cfg.modelName r14.labelMap.length,
          Ev.fitCall cfg.numTrainEpochs cfg.randomSeed r14.trainDataloader],
        .error e)
    | .ok fitted =>
      ([Ev.instantiate cfg.modelName r14.labelMap.length,
          Ev.fitCall cfg.numTrainEpochs cfg.randomSeed r14.trainDataloader],
        .ok fitted)

/-! ## Cell 18: score the test dataloader -/

/-- Notebook cell 18: `model.predict(test_dataloader=…, num_gpus=None,
verbose=True)`. -/
def cell18 (L : Libs) (model : Model) (testDataloader : Loader) :
    List Ev × Except Err Preds :=
  match L.predict model testDataloader none true with
  | .error e => ([Ev.predictCall testDataloader], .error e)
  | .ok preds => ([Ev.predictCall testDataloader], .ok preds)

/-! ## Cells 20-22: true labels, predicted labels, classification report -/

/-- The variables produced by notebook cells 20 and 22. -/
structure R22 where
  trueLabels : List Labels
  predictedLabels : List Labels
  report : String
deriving DecidableEq

/-- Notebook cells 20 and 22: `model.get_true_test_labels`,
`model.get_predicted_token_labels`, then
`classification_report(true_labels, predicted_labels, digits=2)` and
`print(report)`. -/
def cell20to22 (L : Libs) (model : Model) (labelMap : LabelMap)
    (testDataset : Dataset) (preds : Preds) : List Ev × Except Err R22 :=
  match L.getTrueTestLabels model labelMap testDataset with
  | .error e => ([], .error e)
  | .ok trueLabels =>
    match L.getPredictedTokenLabels model preds labelMap testDataset with
    | .error e => ([], .error e)
    | .ok predictedLabels =>
      match L.classificationReport trueLabels predictedLabels 2 with
      | .error e => ([Ev.metrics], .error e)
      | .ok report =>
        ([Ev.metrics],
          .ok { trueLabels := trueLabels, predictedLabels := predictedLabels,
                report := report })

/-! ## Cell 24: score and print two example sentences -/

/-- The variables produced by notebook cell 24. -/
structure R24 where
  sampleDataset : Dataset
  sampleDataloader : Loader
  samplePreds : Preds
  samplePredictedLabels : List Labels
deriving DecidableEq

/-- The two hard-coded example sentences of cell 24. -/
def sampleText : List String :=
  ["Is it true that Jane works at Microsoft?", "Joe now lives in Copenhagen."]

/-- Notebook cell 24: tokenize the example sentences with `x.split()`,
preprocess them with `labels=None`, wrap them in an unshuffled dataloader,
predict, post-process, and print a dataframe per sentence. -/
def cell24 (L : Libs) (cfg : Config) (processor : Processor)
    (labelMap : LabelMap) (model : Model) : List Ev × Except Err R24 :=
  let sampleTokens := sampleText.map pySplitWS
  match L.preprocess processor
      { text := sampleTokens, maxLen := cfg.maxSeqLength, labels := none,
        labelMap := labelMap, trailingPieceTag := cfg.trailingPieceTag } with
  | .error e => ([Ev.wrapDataset], .error e)
  | .ok sampleDataset =>
    match L.dataloaderFromDataset sampleDataset cfg.batchSize none false false with
    | .error e => ([Ev.wrapDataset, Ev.wrapLoader], .error e)
    | .ok sampleDataloader =>
      match L.predict model sampleDataloader none true with
      | .error e =>
        ([Ev.wrapDataset, Ev.wrapLoader, Ev.predictCall sampleDataloader], .error e)
      | .ok samplePreds =>
        match L.getPredictedTokenLabels model samplePreds labelMap sampleDataset with
        | .error e =>
          ([Ev.wrapDataset, Ev.wrapLoader, Ev.predictCall sampleDataloader], .error e)
        | .ok samplePredictedLabels =>
          ([Ev.wrapDataset, Ev.wrapLoader, Ev.predictCall sampleDataloader,
              Ev.printExamples],
            .ok { sampleDataset := sampleDataset,
                  sampleDataloader := sampleDataloader,
                  samplePreds := samplePreds,
                  samplePredictedLabels := samplePredictedLabels })

/-! ## Cell 26: the metrics-recording cell -/

/-- Notebook cell 26, translated statement by statement:

    report_splits = report.split('\n')[-2].split()
    sb.glue("precision", float(report_splits[2]))
    sb.glue("recall", float(report_splits[3]))
    sb.glue("f1", float(report_splits[4]))

Returns the list of metrics actually glued (in execution order) together
with the cell's outcome; each `float(...)` argument is evaluated before the
corresponding `sb.glue` records, so an indexing or parse failure aborts the
cell after the earlier glue calls have already recorded. -/
def metricsCell (report : String) : List (String × ℚ) × Except Err Unit :=
  match pyNeg2 (pySplitChar report '\n') with
  | .error e => ([], .error e)
  | .ok line =>
    let reportSplits := pySplitWS line
    match pyIndex reportSplits 2 with
    | .error e => ([], .error e)
    | .ok f2 =>
      match pyFloat f2 with
      | none => ([], .error ("ValueError: could not convert string to float"))
      | some p =>
        match pyIndex reportSplits 3 with
        | .error e => ([("precision", p)], .error e)
        | .ok f3 =>
          match pyFloat f3 with
          | none => ([("precision", p)],
              .error ("ValueError: could not convert string to float"))
          | some r =>
            match pyIndex reportSplits 4 with
            | .error e => ([("precision", p), ("recall", r)], .error e)
            | .ok f4 =>
              match pyFloat f4 with
              | none => ([("precision", p), ("recall", r)],
                  .error ("ValueError: could not convert string to float"))
              | some f1v =>
                ([("precision", p), ("recall", r), ("f1", f1v)], .ok ())

/-- The format precondition claimed for the metrics cell, following the
spec's words: the second-to-last newline-separated line of the report
exists and has at least five whitespace-separated fields, and fields 2, 3,
and 4 each parse as floats. -/
def reportShapeOK (report : String) : Bool :=
  match pyNeg2 (pySplitChar report '\n') with
  | .error _ => false
  | .ok line =>
    let fs := pySplitWS line
    decide (5 ≤ fs.length) &&
      ((fs.get? 2).bind pyFloat).isSome &&
      ((fs.get? 3).bind pyFloat).isSome &&
      ((fs.get? 4).bind pyFloat).isSome

/-! ## The full notebook run -/

/-- All notebook variables at the end of a successful top-to-bottom run. -/
structure Output where
  r9 : R9
  r14 : R14
  model : Model
  preds : Preds
  r22 : R22
  r24 : R24
  recordedMetrics : List (String × ℚ)
deriving DecidableEq

/-- The notebook, top to bottom: the configuration cell, then cells 9, 14,
16, 18, 20-22, 24, 26 in order, each executed only if every earlier cell
succeeded, with the raised error returned unchanged otherwise.  `g0` is the
`random` module's state before the run; `dataPath` and `cacheDir` are the
two `TemporaryDirectory().name` values. -/
def notebookRun (L : Libs) (quickRun : Bool) (g0 : Nat)
    (dataPath cacheDir : String) : List Ev × Except Err Output :=
  let cfg := configuration quickRun
  let tr0 := [Ev.configStep quickRun]
  match cell9 L cfg g0 dataPath with
  | (t9, .error e) => (tr0 ++ t9, .error e)
  | (t9, .ok r9) =>
    match cell14 L cfg cacheDir r9 with
    | (t14, .error e) => (tr0 ++ t9 ++ t14, .error e)
    | (t14, .ok r14) =>
      match cell16 L cfg cacheDir r14 with
      | (t16, .error e) => (tr0 ++ t9 ++ t14 ++ t16, .error e)
      | (t16, .ok model) =>
        match cell18 L model r14.testDataloader with
        | (t18, .error e) => (tr0 ++ t9 ++ t14 ++ t16 ++ t18, .error e)
        | (t18, .ok preds) =>
          match cell20to22 L model r14.labelMap r14.testDataset preds with
          | (t22, .error e) => (tr0 ++ t9 ++ t14 ++ t16 ++ t18 ++ t22, .error e)
          | (t22, .ok r22) =>
            match cell24 L cfg r14.processor r14.labelMap model with
            | (t24, .error e) =>
              (tr0 ++ t9 ++ t14 ++ t16 ++ t18 ++ t22 ++ t24, .error e)
            | (t24, .ok r24) =>
              match metricsCell r22.report with
              | (rec, .error e) =>
                let _ := rec
                (tr0 ++ t9 ++ t14 ++ t16 ++ t18 ++ t22 ++ t24 ++ [Ev.glueMetrics],
                  .error e)
              | (rec, .ok _) =>
                (tr0 ++ t9 ++ t14 ++ t16 ++ t18 ++ t22 ++ t24 ++ [Ev.glueMetrics],
                  .ok { r9 := r9, r14 := r14, model := model, preds := preds,
                        r22 := r22, r24 := r24, recordedMetrics := rec })

/-! ## Concrete library behaviours used by the witness runs -/

/-- A small concrete `Libs` instance on which every call succeeds: three
parsed sentences, identity sampling and shuffling, and a two-line
classification report whose macro-average row parses. -/
def demoLibs : Libs :=
  { maybeDownload := fun _ _ _ => .ok ("downloaded")
    readConllFile := fun _ =>
      .ok ([["t1"], ["t2"], ["t3"]], [["O"], ["O"], ["I-PER"]])
    sampleIdx := fun _ _ k => List.range k
    permFn := fun _ n => List.range n
    processorCtor := fun _ _ _ => .ok { id := 0 }
    createLabelMap := fun _ _ => [("O", 0), ("I-PER", 1), ("X", 2)]
    preprocess := fun _ args => .ok { id := args.text.length }
    dataloaderFromDataset := fun d _ _ s _ =>
      .ok { id := d.id + (if s then 100 else 0) }
    tokenClassifier := fun _ nl _ => .ok { id := nl }
    fit := fun m _ _ => .ok { id := m.id + 1 }
    predict := fun _ l _ _ => .ok { id := l.id }
    getTrueTestLabels := fun _ _ _ => .ok [["O"]]
    getPredictedTokenLabels := fun _ _ _ _ => .ok [["O"]]
    classificationReport := fun _ _ _ =>
      .ok ("h\nmacro avg 0.78 0.82 0.80 1069\n") }

/-- `demoLibs` with a failing download, for the error-propagation witness. -/
def demoLibsDownloadFail : Libs :=
  { demoLibs with maybeDownload := fun _ _ _ => .error ("ConnectionError") }

/-- The step kinds of a fully successful run of the notebook, in execution
order. -/
def fullRunKinds : List StepKind :=
  [.configStep, .download, .parseConll, .split, .wrapDataset, .wrapLoader,
    .wrapDataset, .wrapLoader, .instantiate, .fitCall, .predictCall,
    .metrics, .wrapDataset, .wrapLoader, .predictCall, .printExamples,
    .glueMetrics]

/-- The trace of the successful demonstration run
`notebookRun demoLibs false 0 "d" "c"` (checked by `demoRun_eq`). -/
def demoTrace : List Ev :=
  [Ev.configStep false,
    Ev.download ("https://raw.githubusercontent.com/juand-r/entity-recognition-datasets" ++
      "/master/data/wikigold/CONLL-format/data/wikigold.conll.txt")
      ("wikigold.conll.txt") ("d"),
    Ev.parseConll ("d/wikigold.conll.txt"),
    Ev.split 1 100,
    Ev.wrapDataset, Ev.wrapLoader, Ev.wrapDataset, Ev.wrapLoader,
    Ev.instantiate ("bert-base-cased") 3,
    Ev.fitCall 5 100 { id := 102 },
    Ev.predictCall { id := 1 },
    Ev.metrics,
    Ev.wrapDataset, Ev.wrapLoader,
    Ev.predictCall { id := 2 },
    Ev.printExamples, Ev.glueMetrics]

/-- The output of the successful demonstration run
`notebookRun demoLibs false 0 "d" "c"` (checked by `demoRun_eq`). -/
def demoOut : Output :=
  { r9 := { fileName := "wikigold.conll.txt"
            dataFile := "d/wikigold.conll.txt"
            sentenceList := [["t1"], ["t2"], ["t3"]]
            labelsList := [["O"], ["O"], ["I-PER"]]
            trainSentenceList := [["t2"], ["t3"]]
            testSentenceList := [["t1"]]
            trainLabelsList := [["O"], ["I-PER"]]
            testLabelsList := [["O"]] }
    r14 := { processor := { id := 0 }
             labelMap := [("O", 0), ("I-PER", 1), ("X", 2)]
             trainDataset := { id := 2 }
             trainDataloader := { id := 102 }
             testDataset := { id := 1 }
             testDataloader := { id := 1 } }
    model := { id := 4 }
    preds := { id := 1 }
    r22 := { trueLabels := [["O"]], predictedLabels := [["O"]]
             report := "h\nmacro avg 0.78 0.82 0.80 1069\n" }
    r24 := { sampleDataset := { id := 2 }
             sampleDataloader := { id := 2 }
             samplePreds := { id := 2 }
             samplePredictedLabels := [["O"]] }
    recordedMetrics := [("precision", mkRat 39 50), ("recall", mkRat 41 50),
      ("f1", mkRat 4 5)] }

/-- `demoLibs` with ten parsed sentences, to exhibit the dependence of the
data preparation on `QUICK_RUN`. -/
def demoLibs10 : Libs :=
  { demoLibs with
    readConllFile := fun _ =>
      .ok ([["s0"], ["s1"], ["s2"], ["s3"], ["s4"], ["s5"], ["s6"], ["s7"],
            ["s8"], ["s9"]],
           [["O"], ["O"], ["O"], ["O"], ["O"], ["O"], ["O"], ["O"], ["O"],
            ["O"]]) }

/-- Modelled from the spec's words for the claimed straight-line glue: the
read/sample/split pipeline of cell 9 with the sample ratio supplied
directly as data, with no `QUICK_RUN` conditional anywhere — for
comparison with the notebook's `cell9`. -/
def dataPrepCore (L : Libs) (ratio : ℚ) (g0 : Nat) (dp : String) :
    List Ev × Except Err R9 :=
  cell9 L { configuration false with sampleRatio := ratio } g0 dp

/-! ## Characterization of each cell's successful run -/

/-- The demonstration run evaluates to the recorded trace and output. -/
theorem demoRun_eq :
    notebookRun demoLibs false 0 ("d") ("c") = (demoTrace, .ok demoOut) := by
  rfl

theorem cell9_ok (L : Libs) (cfg : Config) (g0 : Nat) (dataPath : String)
    (t : List Ev) (r : R9) (h : cell9 L cfg g0 dataPath = (t, .ok r)) :
    r.fileName = pySplitLast cfg.dataUrl '/' ∧
    r.dataFile = pathJoin dataPath r.fileName ∧
    t = [Ev.download cfg.dataUrl r.fileName dataPath, Ev.parseConll r.dataFile,
      Ev.split (testSetSize cfg.testDataFraction r.sentenceList.length)
        cfg.randomSeed] ∧
    (∃ d, L.maybeDownload cfg.dataUrl r.fileName dataPath = .ok d) ∧
    (∃ sl ll, L.readConllFile r.dataFile = .ok (sl, ll) ∧
      sampleSize cfg.sampleRatio sl.length ≤ (List.zip sl ll).length ∧
      pyUnzip (indexSelect
          (L.sampleIdx cfg.randomSeed (List.zip sl ll).length
            (sampleSize cfg.sampleRatio sl.length))
          (List.zip sl ll)) = .ok (r.sentenceList, r.labelsList)) ∧
    (r.trainSentenceList, r.testSentenceList, r.trainLabelsList,
        r.testLabelsList) =
      trainTestSplit (L.permFn cfg.randomSeed r.sentenceList.length)
        (testSetSize cfg.testDataFraction r.sentenceList.length)
        r.sentenceList r.labelsList := by
  simp only [cell9] at h
  split at h
  · simp at h
  · rename_i d hd
    split at h
    · simp at h
    · rename_i sl ll hrc
      split at h
      · simp at h
      · rename_i hk
        split at h
        · simp at h
        · rename_i sl2 ll2 hunzip
          simp only [Prod.mk.injEq, Except.ok.injEq] at h
          obtain ⟨ht, hr⟩ := h
          subst hr
          refine ⟨rfl, rfl, ht.symm, ⟨d, hd⟩, ⟨sl, ll, hrc, by omega, hunzip⟩, rfl⟩

theorem cell14_ok (L : Libs) (cfg : Config) (cacheDir : String) (r9 : R9)
    (t : List Ev) (r : R14) (h : cell14 L cfg cacheDir r9 = (t, .ok r)) :
    L.processorCtor cfg.modelName cfg.doLowerCase cacheDir = .ok r.processor ∧
    r.labelMap = L.createLabelMap r9.labelsList cfg.trailingPieceTag ∧
    L.preprocess r.processor
        { text := r9.trainSentenceList, maxLen := cfg.maxSeqLength,
          labels := some r9.trainLabelsList, labelMap := r.labelMap,
          trailingPieceTag := cfg.trailingPieceTag } = .ok r.trainDataset ∧
    L.dataloaderFromDataset r.trainDataset cfg.batchSize none true false =
      .ok r.trainDataloader ∧
    L.preprocess r.processor
        { text := r9.testSentenceList, maxLen := cfg.maxSeqLength,
          labels := some r9.testLabelsList, labelMap := r.labelMap,
          trailingPieceTag := cfg.trailingPieceTag } = .ok r.testDataset ∧
    L.dataloaderFromDataset r.testDataset cfg.batchSize none false false =
      .ok r.testDataloader ∧
    t = [Ev.wrapDataset, Ev.wrapLoader, Ev.wrapDataset, Ev.wrapLoader] := by
  simp only [cell14] at h
  split at h
  · simp at h
  · rename_i p hp
    split at h
    · simp at h
    · rename_i trd htrd
      split at h
      · simp at h
      · rename_i trl htrl
        split at h
        · simp at h
        · rename_i ted hted
          split at h
          · simp at h
          · rename_i tel htel
            simp only [Prod.mk.injEq, Except.ok.injEq] at h
            obtain ⟨ht, hr⟩ := h
            subst hr
            exact ⟨hp, rfl, htrd, htrl, hted, htel, ht.symm⟩

theorem cell16_ok (L : Libs) (cfg : Config) (cacheDir : String) (r14 : R14)
    (t : List Ev) (m : Model) (h : cell16 L cfg cacheDir r14 = (t, .ok m)) :
    (∃ m0, L.tokenClassifier cfg.modelName r14.labelMap.length cacheDir = .ok m0 ∧
      L.fit m0 r14.trainDataloader (fitArgsOf cfg) = .ok m) ∧
    t = [Ev.instantiate cfg.modelName r14.labelMap.length,
      Ev.fitCall cfg.numTrainEpochs cfg.randomSeed r14.trainDataloader] := by
  simp only [cell16] at h
  split at h
  · simp at h
  · rename_i m0 hm0
    split at h
    · simp at h
    · rename_i hf
      simp only [Prod.mk.injEq, Except.ok.injEq] at h
      obtain ⟨ht, hm⟩ := h
      subst hm
      exact ⟨⟨m0, hm0, hf⟩, ht.symm⟩

theorem cell18_ok (L : Libs) (m : Model) (ld : Loader) (t : List Ev)
    (p : Preds) (h : cell18 L m ld = (t, .ok p)) :
    L.predict m ld none true = .ok p ∧ t = [Ev.predictCall ld] := by
  simp only [cell18] at h
  split at h
  · simp at h
  · rename_i p0 hp0
    simp only [Prod.mk.injEq, Except.ok.injEq] at h
    obtain ⟨ht, hp⟩ := h
    subst hp
    exact ⟨hp0, ht.symm⟩

theorem cell20to22_ok (L : Libs) (m : Model) (lm : LabelMap) (ds : Dataset)
    (p : Preds) (t : List Ev) (r : R22)
    (h : cell20to22 L m lm ds p = (t, .ok r)) :
    L.getTrueTestLabels m lm ds = .ok r.trueLabels ∧
    L.getPredictedTokenLabels m p lm ds = .ok r.predictedLabels ∧
    L.classificationReport r.trueLabels r.predictedLabels 2 = .ok r.report ∧
    t = [Ev.metrics] := by
  simp only [cell20to22] at h
  split at h
  · simp at h
  · rename_i tl htl
    split at h
    · simp at h
    · rename_i pl hpl
      split at h
      · simp at h
      · rename_i rep hrep
        simp only [Prod.mk.injEq, Except.ok.injEq] at h
        obtain ⟨ht, hr⟩ := h
        subst hr
        exact ⟨htl, hpl, hrep, ht.symm⟩

theorem cell24_ok (L : Libs) (cfg : Config) (p : Processor) (lm : LabelMap)
    (m : Model) (t : List Ev) (r : R24)
    (h : cell24 L cfg p lm m = (t, .ok r)) :
    L.preprocess p
        { text := sampleText.map pySplitWS, maxLen := cfg.maxSeqLength,
          labels := none, labelMap := lm,
          trailingPieceTag := cfg.trailingPieceTag } = .ok r.sampleDataset ∧
    L.dataloaderFromDataset r.sampleDataset cfg.batchSize none false false =
      .ok r.sampleDataloader ∧
    L.predict m r.sampleDataloader none true = .ok r.samplePreds ∧
    L.getPredictedTokenLabels m r.samplePreds lm r.sampleDataset =
      .ok r.samplePredictedLabels ∧
    t = [Ev.wrapDataset, Ev.wrapLoader, Ev.predictCall r.sampleDataloader,
      Ev.printExamples] := by
  simp only [cell24] at h
  split at h
  · simp at h
  · rename_i sd hsd
    split at h
    · simp at h
    · rename_i sdl hsdl
      split at h
      · simp at h
      · rename_i sp hsp
        split at h
        · simp at h
        · rename_i spl hspl
          simp only [Prod.mk.injEq, Except.ok.injEq] at h
          obtain ⟨ht, hr⟩ := h
          subst hr
          exact ⟨hsd, hsdl, hsp, hspl, ht.symm⟩

/-- A successful top-to-bottom run decomposes into successful runs of every
cell, on exactly the intermediate values recorded in the output, and its
trace is the concatenation of the cell traces. -/
theorem notebookRun_ok (L : Libs) (q : Bool) (g0 : Nat) (dp cd : String)
    (tr : List Ev) (out : Output)
    (h : notebookRun L q g0 dp cd = (tr, .ok out)) :
    ∃ t9 t14 t16 t18 t22 t24,
      cell9 L (configuration q) g0 dp = (t9, .ok out.r9) ∧
      cell14 L (configuration q) cd out.r9 = (t14, .ok out.r14) ∧
      cell16 L (configuration q) cd out.r14 = (t16, .ok out.model) ∧
      cell18 L out.model out.r14.testDataloader = (t18, .ok out.preds) ∧
      cell20to22 L out.model out.r14.labelMap out.r14.testDataset out.preds =
        (t22, .ok out.r22) ∧
      cell24 L (configuration q) out.r14.processor out.r14.labelMap out.model =
        (t24, .ok out.r24) ∧
      metricsCell out.r22.report = (out.recordedMetrics, .ok ()) ∧
      tr = [Ev.configStep q] ++ t9 ++ t14 ++ t16 ++ t18 ++ t22 ++ t24 ++
        [Ev.glueMetrics] := by
  simp only [notebookRun] at h
  split at h
  · simp at h
  · rename_i t9 r9 h9
    split at h
    · simp at h
    · rename_i t14 r14 h14
      split at h
      · simp at h
      · rename_i t16 m h16
        split at h
        · simp at h
        · rename_i t18 p h18
          split at h
          · simp at h
          · rename_i t22 r22 h22
            split at h
            · simp at h
            · rename_i t24 r24 h24
              split at h
              · simp at h
              · rename_i rec hu hmc
                simp only [Prod.mk.injEq, Except.ok.injEq] at h
                obtain ⟨ht, hout⟩ := h
                subst hout
                exact ⟨t9, t14, t16, t18, t22, t24, h9, h14, h16, h18, h22,
                  h24, hmc, ht.symm⟩

/-! ## Claim C1: pipeline order -/

/-- C1: the notebook's top-level behaviour is the sequential composition of
the listed steps — configuration, download, CoNLL parse, train/test split,
dataset wrapping, dataloader wrapping, model instantiation, fit, predict,
metrics computation, example printing — in exactly this order.  For any
successful run the trace of step kinds equals `fullRunKinds` (the listed
steps in order, with the dataset/loader wrapping and predict sub-steps of
the later cells at their places and the final metrics-gluing cell at the
end), every listed step occurs, and the first occurrences of the eleven
listed steps are strictly increasing in the listed order, so no listed
step runs before a step that precedes it in the list. -/
theorem C1_pipeline_order (L : Libs) (q : Bool) (g0 : Nat) (dp cd : String)
    (tr : List Ev) (out : Output)
    (h : notebookRun L q g0 dp cd = (tr, .ok out)) :
    tr.map kindOf = fullRunKinds ∧
    (∀ k, k ∈ listedSteps → k ∈ tr.map kindOf) ∧
    List.Chain' (fun a b => a < b)
      (listedSteps.map (firstIdx (tr.map kindOf))) := by
  obtain ⟨t9, t14, t16, t18, t22, t24, h9, h14, h16, h18, h22, h24, hmc, htr⟩ :=
    notebookRun_ok L q g0 dp cd tr out h
  obtain ⟨-, -, ht9, -, -, -⟩ := cell9_ok _ _ _ _ _ _ h9
  obtain ⟨-, -, -, -, -, -, ht14⟩ := cell14_ok _ _ _ _ _ _ h14
  obtain ⟨-, ht16⟩ := cell16_ok _ _ _ _ _ _ h16
  obtain ⟨-, ht18⟩ := cell18_ok _ _ _ _ _ h18
  obtain ⟨-, -, -, ht22⟩ := cell20to22_ok _ _ _ _ _ _ _ h22
  obtain ⟨-, -, -, -, ht24⟩ := cell24_ok _ _ _ _ _ _ _ h24
  have hk : tr.map kindOf = fullRunKinds := by
    subst htr ht9 ht14 ht16 ht18 ht22 ht24
    simp [kindOf, fullRunKinds]
  refine ⟨hk, ?_, ?_⟩
  · rw [hk]; decide
  · rw [hk]
    have he : listedSteps.map (firstIdx fullRunKinds) =
        [0, 1, 2, 3, 4, 5, 8, 9, 10, 11, 15] := by decide
    rw [he]
    simp [List.chain'_cons]

/-- Witness for C1 at the concrete successful demonstration run. -/
theorem C1_pipeline_order_witness :
    demoTrace.map kindOf = fullRunKinds ∧
    (∀ k, k ∈ listedSteps → k ∈ demoTrace.map kindOf) ∧
    List.Chain' (fun a b => a < b)
      (listedSteps.map (firstIdx (demoTrace.map kindOf))) :=
  C1_pipeline_order demoLibs false 0 ("d") ("c") demoTrace demoOut demoRun_eq

/-! ## Event kinds emitted by each cell, in every branch -/

theorem cell9_events (L : Libs) (cfg : Config) (g0 : Nat) (dp : String) :
    ∀ e ∈ (cell9 L cfg g0 dp).1, evOK cfg e := by
  simp only [cell9]
  repeat' split
  all_goals simp [evOK, List.forall_mem_cons]

theorem cell14_events (L : Libs) (cfg : Config) (cd : String) (r9 : R9) :
    ∀ e ∈ (cell14 L cfg cd r9).1, evOK cfg e := by
  simp only [cell14]
  repeat' split
  all_goals simp [evOK, List.forall_mem_cons]

theorem cell16_events (L : Libs) (cfg : Config) (cd : String) (r14 : R14) :
    ∀ e ∈ (cell16 L cfg cd r14).1, evOK cfg e := by
  simp only [cell16]
  repeat' split
  all_goals simp [evOK, List.forall_mem_cons]

theorem cell18_events (L : Libs) (cfg : Config) (m : Model) (ld : Loader) :
    ∀ e ∈ (cell18 L m ld).1, evOK cfg e := by
  simp only [cell18]
  repeat' split
  all_goals simp [evOK, List.forall_mem_cons]

theorem cell20to22_events (L : Libs) (cfg : Config) (m : Model)
    (lm : LabelMap) (ds : Dataset) (p : Preds) :
    ∀ e ∈ (cell20to22 L m lm ds p).1, evOK cfg e := by
  simp only [cell20to22]
  repeat' split
  all_goals simp [evOK, List.forall_mem_cons]

theorem cell24_events (L : Libs) (cfg : Config) (p : Processor)
    (lm : LabelMap) (m : Model) :
    ∀ e ∈ (cell24 L cfg p lm m).1, evOK cfg e := by
  simp only [cell24]
  repeat' split
  all_goals simp [evOK, List.forall_mem_cons]

/-- Every event any run of the notebook can emit — successful or not — is
one of the pipeline step kinds. -/
theorem notebookRun_events (L : Libs) (q : Bool) (g0 : Nat) (dp cd : String) :
    ∀ e ∈ (notebookRun L q g0 dp cd).1, evOK (configuration q) e := by
  have h9 := cell9_events L (configuration q) g0 dp
  simp only [notebookRun]
  split
  all_goals rename_i heq9
  · rw [heq9] at h9
    intro e he
    rcases List.mem_append.mp he with he | he
    · simp at he; subst he; simp [evOK]
    · exact h9 e he
  · rw [heq9] at h9
    rename_i t9 r9
    have h14 := cell14_events L (configuration q) cd r9
    split
    all_goals rename_i heq14
    · rw [heq14] at h14
      intro e he
      rcases List.mem_append.mp he with he | he
      · rcases List.mem_append.mp he with he | he
        · simp at he; subst he; simp [evOK]
        · exact h9 e he
      · exact h14 e he
    · rw [heq14] at h14
      rename_i t14 r14
      have h16 := cell16_events L (configuration q) cd r14
      split
      all_goals rename_i heq16
      · rw [heq16] at h16
        intro e he
        rcases List.mem_append.mp he with he | he
        · rcases List.mem_append.mp he with he | he
          · rcases List.mem_append.mp he with he | he
            · simp at he; subst he; simp [evOK]
            · exact h9 e he
          · exact h14 e he
        · exact h16 e he
      · rw [heq16] at h16
        rename_i t16 m
        have h18 := cell18_events L (configuration q) m r14.testDataloader
        split
        all_goals rename_i heq18
        · rw [heq18] at h18
          intro e he
          rcases List.mem_append.mp he with he | he
          · rcases List.mem_append.mp he with he | he
            · rcases List.mem_append.mp he with he | he
              · rcases List.mem_append.mp he with he | he
                · simp at he; subst he; simp [evOK]
                · exact h9 e he
              · exact h14 e he
            · exact h16 e he
          · exact h18 e he
        · rw [heq18] at h18
          rename_i t18 p
          have h22 := cell20to22_events L (configuration q) m r14.labelMap r14.testDataset p
          split
          all_goals rename_i heq22
          · rw [heq22] at h22
            intro e he
            rcases List.mem_append.mp he with he | he
            · rcases List.mem_append.mp he with he | he
              · rcases List.mem_append.mp he with he | he
                · rcases List.mem_append.mp he with he | he
                  · rcases List.mem_append.mp he with he | he
                    · simp at he; subst he; simp [evOK]
                    · exact h9 e he
                  · exact h14 e he
                · exact h16 e he
              · exact h18 e he
            · exact h22 e he
          · rw [heq22] at h22
            rename_i t22 r22
            have h24 := cell24_events L (configuration q) r14.processor
              r14.labelMap m
            split
            all_goals rename_i heq24
            · rw [heq24] at h24
              intro e he
              rcases List.mem_append.mp he with he | he
              · rcases List.mem_append.mp he with he | he
                · rcases List.mem_append.mp he with he | he
                  · rcases List.mem_append.mp he with he | he
                    · rcases List.mem_append.mp he with he | he
                      · rcases List.mem_append.mp he with he | he
                        · simp at he; subst he; simp [evOK]
                        · exact h9 e he
                      · exact h14 e he
                    · exact h16 e he
                  · exact h18 e he
                · exact h22 e he
              · exact h24 e he
            · rw [heq24] at h24
              rename_i t24 r24
              split
              all_goals
                intro e he
                rcases List.mem_append.mp he with he | he
                · rcases List.mem_append.mp he with he | he
                  · rcases List.mem_append.mp he with he | he
                    · rcases List.mem_append.mp he with he | he
                      · rcases List.mem_append.mp he with he | he
                        · rcases List.mem_append.mp he with he | he
                          · rcases List.mem_append.mp he with he | he
                            · simp at he; subst he
                              simp [evOK]
                            · exact h9 e he
                          · exact h14 e he
                        · exact h16 e he
                      · exact h18 e he
                    · exact h22 e he
                  · exact h24 e he
                · simp at he; subst he; simp [evOK]

/-! ## Claim C10: no concurrency in the notebook's own code -/

/-- C10: the notebook runs single-threaded, top to bottom: no run — under
any library behaviour, succeeding or failing at any point — ever emits a
thread-creation, lock, channel, cancellation-token, or backpressure event;
all concurrency is inside the called libraries, which the embedding treats
as opaque.  -/
theorem C10_single_threaded (L : Libs) (q : Bool) (g0 : Nat) (dp cd : String) :
    ∀ e ∈ (notebookRun L q g0 dp cd).1, kindOf e ∉ concurrencyKinds := by
  intro e he hc
  have h := notebookRun_events L q g0 dp cd e he
  cases e <;> simp_all [evOK, kindOf, concurrencyKinds]

/-- Witness for C10: the configuration event of the demonstration run is
not a concurrency primitive. -/
theorem C10_single_threaded_witness :
    kindOf (Ev.configStep false) ∉ concurrencyKinds :=
  C10_single_threaded demoLibs false 0 ("d") ("c") (Ev.configStep false)
    (by decide)

/-! ## Claim C4: the single fit call and its epoch count -/

theorem cell9_fitCount (L : Libs) (cfg : Config) (g0 : Nat) (dp : String) :
    (cell9 L cfg g0 dp).1.countP isFitEv = 0 := by
  simp only [cell9]
  repeat' split
  all_goals simp [isFitEv, List.countP_cons]

theorem cell14_fitCount (L : Libs) (cfg : Config) (cd : String) (r9 : R9) :
    (cell14 L cfg cd r9).1.countP isFitEv = 0 := by
  simp only [cell14]
  repeat' split
  all_goals simp [isFitEv, List.countP_cons]

theorem cell16_fitCount (L : Libs) (cfg : Config) (cd : String) (r14 : R14) :
    (cell16 L cfg cd r14).1.countP isFitEv ≤ 1 := by
  simp only [cell16]
  repeat' split
  all_goals simp [isFitEv, List.countP_cons]

theorem cell18_fitCount (L : Libs) (m : Model) (ld : Loader) :
    (cell18 L m ld).1.countP isFitEv = 0 := by
  simp only [cell18]
  repeat' split
  all_goals simp [isFitEv, List.countP_cons]

theorem cell20to22_fitCount (L : Libs) (m : Model) (lm : LabelMap)
    (ds : Dataset) (p : Preds) :
    (cell20to22 L m lm ds p).1.countP isFitEv = 0 := by
  simp only [cell20to22]
  repeat' split
  all_goals simp [isFitEv, List.countP_cons]

theorem cell24_fitCount (L : Libs) (cfg : Config) (p : Processor)
    (lm : LabelMap) (m : Model) :
    (cell24 L cfg p lm m).1.countP isFitEv = 0 := by
  simp only [cell24]
  repeat' split
  all_goals simp [isFitEv, List.countP_cons]

/-- Any run of the notebook calls `model.fit` at most once, whether or not
it completes. -/
theorem notebookRun_fitCount (L : Libs) (q : Bool) (g0 : Nat)
    (dp cd : String) :
    (notebookRun L q g0 dp cd).1.countP isFitEv ≤ 1 := by
  have w9 : ∀ (t : List Ev) (res : Except Err R9),
      cell9 L (configuration q) g0 dp = (t, res) →
      t.countP isFitEv = 0 := by
    intro t res hEq
    have h := cell9_fitCount L (configuration q) g0 dp
    rw [hEq] at h
    exact h
  have w14 : ∀ (r9 : R9) (t : List Ev) (res : Except Err R14),
      cell14 L (configuration q) cd r9 = (t, res) →
      t.countP isFitEv = 0 := by
    intro r9 t res hEq
    have h := cell14_fitCount L (configuration q) cd r9
    rw [hEq] at h
    exact h
  have w16 : ∀ (r14 : R14) (t : List Ev) (res : Except Err Model),
      cell16 L (configuration q) cd r14 = (t, res) →
      t.countP isFitEv ≤ 1 := by
    intro r14 t res hEq
    have h := cell16_fitCount L (configuration q) cd r14
    rw [hEq] at h
    exact h
  have w18 : ∀ (m : Model) (ld : Loader) (t : List Ev)
      (res : Except Err Preds), cell18 L m ld = (t, res) →
      t.countP isFitEv = 0 := by
    intro m ld t res hEq
    have h := cell18_fitCount L m ld
    rw [hEq] at h
    exact h
  have w22 : ∀ (m : Model) (lm : LabelMap) (ds : Dataset) (p : Preds)
      (t : List Ev) (res : Except Err R22),
      cell20to22 L m lm ds p = (t, res) → t.countP isFitEv = 0 := by
    intro m lm ds p t res hEq
    have h := cell20to22_fitCount L m lm ds p
    rw [hEq] at h
    exact h
  have w24 : ∀ (p : Processor) (lm : LabelMap) (m : Model) (t : List Ev)
      (res : Except Err R24),
      cell24 L (configuration q) p lm m = (t, res) →
      t.countP isFitEv = 0 := by
    intro p lm m t res hEq
    have h := cell24_fitCount L (configuration q) p lm m
    rw [hEq] at h
    exact h
  simp only [notebookRun]
  split
  all_goals rename_i heq9
  · have h9 := w9 _ _ heq9
    simp [List.countP_append, List.countP_cons, isFitEv, h9]
  · have h9 := w9 _ _ heq9
    rename_i t9 r9
    split
    all_goals rename_i heq14
    · have h14 := w14 _ _ _ heq14
      simp [List.countP_append, List.countP_cons, isFitEv, h9, h14]
    · have h14 := w14 _ _ _ heq14
      rename_i t14 r14
      split
      all_goals rename_i heq16
      · have h16 := w16 _ _ _ heq16
        simp [List.countP_append, List.countP_cons, isFitEv, h9, h14]
        omega
      · have h16 := w16 _ _ _ heq16
        rename_i t16 m
        split
        all_goals rename_i heq18
        · have h18 := w18 _ _ _ _ heq18
          simp [List.countP_append, List.countP_cons, isFitEv, h9, h14, h18]
          omega
        · have h18 := w18 _ _ _ _ heq18
          rename_i t18 p
          split
          all_goals rename_i heq22
          · have h22 := w22 _ _ _ _ _ _ heq22
            simp [List.countP_append, List.countP_cons, isFitEv, h9, h14,
              h18, h22]
            omega
          · have h22 := w22 _ _ _ _ _ _ heq22
            rename_i t22 r22
            split
            all_goals rename_i heq24
            · have h24 := w24 _ _ _ _ _ heq24
              simp [List.countP_append, List.countP_cons, isFitEv, h9, h14,
                h18, h22, h24]
              omega
            · have h24 := w24 _ _ _ _ _ heq24
              rename_i t24 r24
              split
              all_goals
                simp [List.countP_append, List.countP_cons, isFitEv, h9,
                  h14, h18, h22, h24]
                omega

/-- C4: the model is trained exactly once, by the single `model.fit` call,
whose `num_epochs` argument is `NUM_TRAIN_EPOCHS`: `5` when `QUICK_RUN` is
`False` and `1` when `QUICK_RUN` is `True`.  Every fit event in any trace
carries that epoch count, no run ever fits more than once, and a
successful run fits exactly once. -/
theorem C4_num_train_epochs (L : Libs) (q : Bool) (g0 : Nat)
    (dp cd : String) :
    (∀ ne s ld, Ev.fitCall ne s ld ∈ (notebookRun L q g0 dp cd).1 →
      ne = (if q then 1 else 5) ∧ ne = (configuration q).numTrainEpochs) ∧
    (notebookRun L q g0 dp cd).1.countP isFitEv ≤ 1 ∧
    (∀ tr out, notebookRun L q g0 dp cd = (tr, .ok out) →
      tr.countP isFitEv = 1) := by
  refine ⟨?_, notebookRun_fitCount L q g0 dp cd, ?_⟩
  · intro ne s ld hm
    have h := notebookRun_events L q g0 dp cd _ hm
    simp only [evOK] at h
    refine ⟨?_, h.1⟩
    rw [h.1]
    cases q <;> rfl
  · intro tr out h
    obtain ⟨t9, t14, t16, t18, t22, t24, h9, h14, h16, h18, h22, h24, hmc,
      htr⟩ := notebookRun_ok L q g0 dp cd tr out h
    obtain ⟨-, -, ht9, -, -, -⟩ := cell9_ok _ _ _ _ _ _ h9
    obtain ⟨-, -, -, -, -, -, ht14⟩ := cell14_ok _ _ _ _ _ _ h14
    obtain ⟨-, ht16⟩ := cell16_ok _ _ _ _ _ _ h16
    obtain ⟨-, ht18⟩ := cell18_ok _ _ _ _ _ h18
    obtain ⟨-, -, -, ht22⟩ := cell20to22_ok _ _ _ _ _ _ _ h22
    obtain ⟨-, -, -, -, ht24⟩ := cell24_ok _ _ _ _ _ _ _ h24
    subst htr ht9 ht14 ht16 ht18 ht22 ht24
    simp [List.countP_append, List.countP_cons, isFitEv]

/-- Witness for C4 at the concrete successful demonstration run: its trace
records exactly one fit call. -/
theorem C4_num_train_epochs_witness : demoTrace.countP isFitEv = 1 :=
  (C4_num_train_epochs demoLibs false 0 ("d") ("c")).2.2 demoTrace demoOut
    demoRun_eq

/-! ## Claim C8: seeded determinism of data preparation -/

/-- C8: the run is deterministic in the ambient `random`-module state:
because the notebook calls `random.seed(RANDOM_SEED)` before sampling and
passes `random_state=RANDOM_SEED` and `seed=RANDOM_SEED` everywhere, two
runs differing only in the initial random state `g0` are identical — same
trace, same sub-sample, same train/test split, same label lists, same
output — and the seed used by the split and fit steps is the constant
`100`. -/
theorem C8_seeded_determinism (L : Libs) (q : Bool) (dp cd : String)
    (g0 g1 : Nat) :
    notebookRun L q g0 dp cd = notebookRun L q g1 dp cd ∧
    (configuration q).randomSeed = 100 ∧
    (∀ ne s ld, Ev.fitCall ne s ld ∈ (notebookRun L q g0 dp cd).1 →
      s = 100) ∧
    (∀ nt rs, Ev.split nt rs ∈ (notebookRun L q g0 dp cd).1 → rs = 100) := by
  refine ⟨rfl, by cases q <;> rfl, ?_, ?_⟩
  · intro ne s ld hm
    have h := notebookRun_events L q g0 dp cd _ hm
    simp only [evOK] at h
    rw [h.2]
    cases q <;> rfl
  · intro nt rs hm
    have h := notebookRun_events L q g0 dp cd _ hm
    simp only [evOK] at h
    rw [h]
    cases q <;> rfl

/-- Witness for C8: two demonstration runs with different initial random
states coincide, and the fit event of the first run used seed 100. -/
theorem C8_seeded_determinism_witness :
    notebookRun demoLibs false 0 ("d") ("c") =
      notebookRun demoLibs false 7 ("d") ("c") ∧
    (100 : Nat) = 100 :=
  ⟨(C8_seeded_determinism demoLibs false ("d") ("c") 0 7).1,
    (C8_seeded_determinism demoLibs false ("d") ("c") 0 7).2.2.1 5 100
      { id := 102 } (by decide)⟩

/-! ## Claim C2: library failures propagate unchanged -/

/-- C2: every failure raised by a called library propagates unchanged to
the top level and execution never continues past it.  The first seven
conjuncts show that when any cell fails the whole run returns that very
error with no further events; the remaining conjuncts show, for every
library call site, that an error raised there (with all earlier calls
succeeding) aborts the enclosing cell with that very error and no later
events — together: no handler, no retry, no recovery anywhere. -/
theorem C2_error_propagation (L : Libs) (q : Bool) (g0 : Nat)
    (dp cd : String) :
    (∀ t9 e, cell9 L (configuration q) g0 dp = (t9, .error e) →
      notebookRun L q g0 dp cd = (Ev.configStep q :: t9, .error e)) ∧
    (∀ t9 r9 t14 e, cell9 L (configuration q) g0 dp = (t9, .ok r9) →
      cell14 L (configuration q) cd r9 = (t14, .error e) →
      notebookRun L q g0 dp cd =
        (Ev.configStep q :: (t9 ++ t14), .error e)) ∧
    (∀ t9 r9 t14 r14 t16 e, cell9 L (configuration q) g0 dp = (t9, .ok r9) →
      cell14 L (configuration q) cd r9 = (t14, .ok r14) →
      cell16 L (configuration q) cd r14 = (t16, .error e) →
      notebookRun L q g0 dp cd =
        (Ev.configStep q :: (t9 ++ t14 ++ t16), .error e)) ∧
    (∀ t9 r9 t14 r14 t16 m t18 e,
      cell9 L (configuration q) g0 dp = (t9, .ok r9) →
      cell14 L (configuration q) cd r9 = (t14, .ok r14) →
      cell16 L (configuration q) cd r14 = (t16, .ok m) →
      cell18 L m r14.testDataloader = (t18, .error e) →
      notebookRun L q g0 dp cd =
        (Ev.configStep q :: (t9 ++ t14 ++ t16 ++ t18), .error e)) ∧
    (∀ t9 r9 t14 r14 t16 m t18 p t22 e,
      cell9 L (configuration q) g0 dp = (t9, .ok r9) →
      cell14 L (configuration q) cd r9 = (t14, .ok r14) →
      cell16 L (configuration q) cd r14 = (t16, .ok m) →
      cell18 L m r14.testDataloader = (t18, .ok p) →
      cell20to22 L m r14.labelMap r14.testDataset p = (t22, .error e) →
      notebookRun L q g0 dp cd =
        (Ev.configStep q :: (t9 ++ t14 ++ t16 ++ t18 ++ t22), .error e)) ∧
    (∀ t9 r9 t14 r14 t16 m t18 p t22 r22 t24 e,
      cell9 L (configuration q) g0 dp = (t9, .ok r9) →
      cell14 L (configuration q) cd r9 = (t14, .ok r14) →
      cell16 L (configuration q) cd r14 = (t16, .ok m) →
      cell18 L m r14.testDataloader = (t18, .ok p) →
      cell20to22 L m r14.labelMap r14.testDataset p = (t22, .ok r22) →
      cell24 L (configuration q) r14.processor r14.labelMap m =
        (t24, .error e) →
      notebookRun L q g0 dp cd =
        (Ev.configStep q :: (t9 ++ t14 ++ t16 ++ t18 ++ t22 ++ t24),
          .error e)) ∧
    (∀ t9 r9 t14 r14 t16 m t18 p t22 r22 t24 r24 rec e,
      cell9 L (configuration q) g0 dp = (t9, .ok r9) →
      cell14 L (configuration q) cd r9 = (t14, .ok r14) →
      cell16 L (configuration q) cd r14 = (t16, .ok m) →
      cell18 L m r14.testDataloader = (t18, .ok p) →
      cell20to22 L m r14.labelMap r14.testDataset p = (t22, .ok r22) →
      cell24 L (configuration q) r14.processor r14.labelMap m =
        (t24, .ok r24) →
      metricsCell r22.report = (rec, .error e) →
      notebookRun L q g0 dp cd =
        (Ev.configStep q ::
          (t9 ++ t14 ++ t16 ++ t18 ++ t22 ++ t24 ++ [Ev.glueMetrics]),
          .error e)) ∧
    (∀ (cfg : Config) e,
      L.maybeDownload cfg.dataUrl (pySplitLast cfg.dataUrl '/') dp =
        .error e →
      cell9 L cfg g0 dp =
        ([Ev.download cfg.dataUrl (pySplitLast cfg.dataUrl '/') dp],
          .error e)) ∧
    (∀ (cfg : Config) d e,
      L.maybeDownload cfg.dataUrl (pySplitLast cfg.dataUrl '/') dp = .ok d →
      L.readConllFile (pathJoin dp (pySplitLast cfg.dataUrl '/')) =
        .error e →
      cell9 L cfg g0 dp =
        ([Ev.download cfg.dataUrl (pySplitLast cfg.dataUrl '/') dp,
          Ev.parseConll (pathJoin dp (pySplitLast cfg.dataUrl '/'))],
          .error e)) ∧
    (∀ (cfg : Config) (r9 : R9) e,
      L.processorCtor cfg.modelName cfg.doLowerCase cd = .error e →
      cell14 L cfg cd r9 = ([], .error e)) ∧
    (∀ (cfg : Config) (r9 : R9) pr e,
      L.processorCtor cfg.modelName cfg.doLowerCase cd = .ok pr →
      L.preprocess pr
        { text := r9.trainSentenceList, maxLen := cfg.maxSeqLength,
          labels := some r9.trainLabelsList,
          labelMap := L.createLabelMap r9.labelsList cfg.trailingPieceTag,
          trailingPieceTag := cfg.trailingPieceTag } = .error e →
      cell14 L cfg cd r9 = ([Ev.wrapDataset], .error e)) ∧
    (∀ (cfg : Config) (r9 : R9) pr trd e,
      L.processorCtor cfg.modelName cfg.doLowerCase cd = .ok pr →
      L.preprocess pr
        { text := r9.trainSentenceList, maxLen := cfg.maxSeqLength,
          labels := some r9.trainLabelsList,
          labelMap := L.createLabelMap r9.labelsList cfg.trailingPieceTag,
          trailingPieceTag := cfg.trailingPieceTag } = .ok trd →
      L.dataloaderFromDataset trd cfg.batchSize none true false = .error e →
      cell14 L cfg cd r9 = ([Ev.wrapDataset, Ev.wrapLoader], .error e)) ∧
    (∀ (cfg : Config) (r9 : R9) pr trd trl e,
      L.processorCtor cfg.modelName cfg.doLowerCase cd = .ok pr →
      L.preprocess pr
        { text := r9.trainSentenceList, maxLen := cfg.maxSeqLength,
          labels := some r9.trainLabelsList,
          labelMap := L.createLabelMap r9.labelsList cfg.trailingPieceTag,
          trailingPieceTag := cfg.trailingPieceTag } = .ok trd →
      L.dataloaderFromDataset trd cfg.batchSize none true false = .ok trl →
      L.preprocess pr
        { text := r9.testSentenceList, maxLen := cfg.maxSeqLength,
          labels := some r9.testLabelsList,
          labelMap := L.createLabelMap r9.labelsList cfg.trailingPieceTag,
          trailingPieceTag := cfg.trailingPieceTag } = .error e →
      cell14 L cfg cd r9 =
        ([Ev.wrapDataset, Ev.wrapLoader, Ev.wrapDataset], .error e)) ∧
    (∀ (cfg : Config) (r9 : R9) pr trd trl ted e,
      L.processorCtor cfg.modelName cfg.doLowerCase cd = .ok pr →
      L.preprocess pr
        { text := r9.trainSentenceList, maxLen := cfg.maxSeqLength,
          labels := some r9.trainLabelsList,
          labelMap := L.createLabelMap r9.labelsList cfg.trailingPieceTag,
          trailingPieceTag := cfg.trailingPieceTag } = .ok trd →
      L.dataloaderFromDataset trd cfg.batchSize none true false = .ok trl →
      L.preprocess pr
        { text := r9.testSentenceList, maxLen := cfg.maxSeqLength,
          labels := some r9.testLabelsList,
          labelMap := L.createLabelMap r9.labelsList cfg.trailingPieceTag,
          trailingPieceTag := cfg.trailingPieceTag } = .ok ted →
      L.dataloaderFromDataset ted cfg.batchSize none false false =
        .error e →
      cell14 L cfg cd r9 =
        ([Ev.wrapDataset, Ev.wrapLoader, Ev.wrapDataset, Ev.wrapLoader],
          .error e)) ∧
    (∀ (cfg : Config) (r14 : R14) e,
      L.tokenClassifier cfg.modelName r14.labelMap.length cd = .error e →
      cell16 L cfg cd r14 =
        ([Ev.instantiate cfg.modelName r14.labelMap.length], .error e)) ∧
    (∀ (cfg : Config) (r14 : R14) m0 e,
      L.tokenClassifier cfg.modelName r14.labelMap.length cd = .ok m0 →
      L.fit m0 r14.trainDataloader (fitArgsOf cfg) = .error e →
      cell16 L cfg cd r14 =
        ([Ev.instantiate cfg.modelName r14.labelMap.length,
          Ev.fitCall cfg.numTrainEpochs cfg.randomSeed r14.trainDataloader],
          .error e)) ∧
    (∀ (m : Model) (ld : Loader) e, L.predict m ld none true = .error e →
      cell18 L m ld = ([Ev.predictCall ld], .error e)) ∧
    (∀ (m : Model) (lm : LabelMap) (ds : Dataset) (p : Preds) e,
      L.getTrueTestLabels m lm ds = .error e →
      cell20to22 L m lm ds p = ([], .error e)) ∧
    (∀ (m : Model) (lm : LabelMap) (ds : Dataset) (p : Preds) tl e,
      L.getTrueTestLabels m lm ds = .ok tl →
      L.getPredictedTokenLabels m p lm ds = .error e →
      cell20to22 L m lm ds p = ([], .error e)) ∧
    (∀ (m : Model) (lm : LabelMap) (ds : Dataset) (p : Preds) tl pl e,
      L.getTrueTestLabels m lm ds = .ok tl →
      L.getPredictedTokenLabels m p lm ds = .ok pl →
      L.classificationReport tl pl 2 = .error e →
      cell20to22 L m lm ds p = ([Ev.metrics], .error e)) ∧
    (∀ (cfg : Config) (pr : Processor) (lm : LabelMap) (m : Model) e,
      L.preprocess pr
        { text := sampleText.map pySplitWS, maxLen := cfg.maxSeqLength,
          labels := none, labelMap := lm,
          trailingPieceTag := cfg.trailingPieceTag } = .error e →
      cell24 L cfg pr lm m = ([Ev.wrapDataset], .error e)) ∧
    (∀ (cfg : Config) (pr : Processor) (lm : LabelMap) (m : Model) sd e,
      L.preprocess pr
        { text := sampleText.map pySplitWS, maxLen := cfg.maxSeqLength,
          labels := none, labelMap := lm,
          trailingPieceTag := cfg.trailingPieceTag } = .ok sd →
      L.dataloaderFromDataset sd cfg.batchSize none false false =
        .error e →
      cell24 L cfg pr lm m = ([Ev.wrapDataset, Ev.wrapLoader], .error e)) ∧
    (∀ (cfg : Config) (pr : Processor) (lm : LabelMap) (m : Model) sd sdl e,
      L.preprocess pr
        { text := sampleText.map pySplitWS, maxLen := cfg.maxSeqLength,
          labels := none, labelMap := lm,
          trailingPieceTag := cfg.trailingPieceTag } = .ok sd →
      L.dataloaderFromDataset sd cfg.batchSize none false false = .ok sdl →
      L.predict m sdl none true = .error e →
      cell24 L cfg pr lm m =
        ([Ev.wrapDataset, Ev.wrapLoader, Ev.predictCall sdl], .error e)) ∧
    (∀ (cfg : Config) (pr : Processor) (lm : LabelMap) (m : Model)
      sd sdl sp e,
      L.preprocess pr
        { text := sampleText.map pySplitWS, maxLen := cfg.maxSeqLength,
          labels := none, labelMap := lm,
          trailingPieceTag := cfg.trailingPieceTag } = .ok sd →
      L.dataloaderFromDataset sd cfg.batchSize none false false = .ok sdl →
      L.predict m sdl none true = .ok sp →
      L.getPredictedTokenLabels m sp lm sd = .error e →
      cell24 L cfg pr lm m =
        ([Ev.wrapDataset, Ev.wrapLoader, Ev.predictCall sdl], .error e)) := by
  refine ⟨?_, ?_, ?_, ?_, ?_, ?_, ?_, ?_, ?_, ?_, ?_, ?_, ?_, ?_, ?_, ?_,
    ?_, ?_, ?_, ?_, ?_, ?_, ?_, ?_⟩
  · intro t9 e h9
    simp [notebookRun, h9]
  · intro t9 r9 t14 e h9 h14
    simp [notebookRun, h9, h14]
  · intro t9 r9 t14 r14 t16 e h9 h14 h16
    simp [notebookRun, h9, h14, h16]
  · intro t9 r9 t14 r14 t16 m t18 e h9 h14 h16 h18
    simp [notebookRun, h9, h14, h16, h18]
  · intro t9 r9 t14 r14 t16 m t18 p t22 e h9 h14 h16 h18 h22
    simp [notebookRun, h9, h14, h16, h18, h22]
  · intro t9 r9 t14 r14 t16 m t18 p t22 r22 t24 e h9 h14 h16 h18 h22 h24
    simp [notebookRun, h9, h14, h16, h18, h22, h24]
  · intro t9 r9 t14 r14 t16 m t18 p t22 r22 t24 r24 rec e h9 h14 h16 h18
      h22 h24 hmc
    simp [notebookRun, h9, h14, h16, h18, h22, h24, hmc]
  · intro cfg e h1
    simp [cell9, h1]
  · intro cfg d e h1 h2
    simp [cell9, h1, h2]
  · intro cfg r9 e h1
    simp [cell14, h1]
  · intro cfg r9 pr e h1 h2
    simp [cell14, h1, h2]
  · intro cfg r9 pr trd e h1 h2 h3
    simp [cell14, h1, h2, h3]
  · intro cfg r9 pr trd trl e h1 h2 h3 h4
    simp [cell14, h1, h2, h3, h4]
  · intro cfg r9 pr trd trl ted e h1 h2 h3 h4 h5
    simp [cell14, h1, h2, h3, h4, h5]
  · intro cfg r14 e h1
    simp [cell16, h1]
  · intro cfg r14 m0 e h1 h2
    simp [cell16, h1, h2]
  · intro m ld e h1
    simp [cell18, h1]
  · intro m lm ds p e h1
    simp [cell20to22, h1]
  · intro m lm ds p tl e h1 h2
    simp [cell20to22, h1, h2]
  · intro m lm ds p tl pl e h1 h2 h3
    simp [cell20to22, h1, h2, h3]
  · intro cfg pr lm m e h1
    simp [cell24, h1]
  · intro cfg pr lm m sd e h1 h2
    simp [cell24, h1, h2]
  · intro cfg pr lm m sd sdl e h1 h2 h3
    simp [cell24, h1, h2, h3]
  · intro cfg pr lm m sd sdl sp e h1 h2 h3 h4
    simp [cell24, h1, h2, h3, h4]

/-- Witness for C2: with a failing download, the demonstration run aborts
with exactly that error after the download event. -/
theorem C2_error_propagation_witness :
    notebookRun demoLibsDownloadFail false 0 ("d") ("c") =
      (Ev.configStep false ::
        [Ev.download ((configuration false).dataUrl)
          (pySplitLast ((configuration false).dataUrl) '/') ("d")],
        .error ("ConnectionError")) :=
  (C2_error_propagation demoLibsDownloadFail false 0 ("d") ("c")).1
    [Ev.download ((configuration false).dataUrl)
      (pySplitLast ((configuration false).dataUrl) '/') ("d")]
    ("ConnectionError") (by rfl)

/-! ## Claim C5: the scored split is held out from training -/

/-- C5: the scored split is held out: `TEST_DATA_FRACTION` is `0.3`; the
four split lists of a successful run come from
`train_test_split(random_state=100)` applied to the sub-sampled data with
`n_test = ceil(0.3 * n)`; whenever the shuffle permutation is duplicate-free
(as a permutation is), the test indices are disjoint from the training
indices; and the prediction that feeds the evaluation, the true/predicted
label extraction, and the classification report are all computed from the
test dataset and dataloader built from that test split only. -/
theorem C5_held_out_split (L : Libs) (q : Bool) (g0 : Nat) (dp cd : String)
    (tr : List Ev) (out : Output)
    (h : notebookRun L q g0 dp cd = (tr, .ok out))
    (hperm : (L.permFn 100 out.r9.sentenceList.length).Nodup) :
    (configuration q).testDataFraction = 3 / 10 ∧
    (out.r9.trainSentenceList, out.r9.testSentenceList,
        out.r9.trainLabelsList, out.r9.testLabelsList) =
      trainTestSplit (L.permFn 100 out.r9.sentenceList.length)
        (testSetSize (configuration q).testDataFraction
          out.r9.sentenceList.length)
        out.r9.sentenceList out.r9.labelsList ∧
    List.Disjoint
      ((L.permFn 100 out.r9.sentenceList.length).take
        (testSetSize (configuration q).testDataFraction
          out.r9.sentenceList.length))
      ((L.permFn 100 out.r9.sentenceList.length).drop
        (testSetSize (configuration q).testDataFraction
          out.r9.sentenceList.length)) ∧
    L.preprocess out.r14.processor
        { text := out.r9.testSentenceList, maxLen := 200,
          labels := some out.r9.testLabelsList,
          labelMap := out.r14.labelMap, trailingPieceTag := "X" } =
      .ok out.r14.testDataset ∧
    L.dataloaderFromDataset out.r14.testDataset 16 none false false =
      .ok out.r14.testDataloader ∧
    L.predict out.model out.r14.testDataloader none true = .ok out.preds ∧
    L.getTrueTestLabels out.model out.r14.labelMap out.r14.testDataset =
      .ok out.r22.trueLabels ∧
    L.getPredictedTokenLabels out.model out.preds out.r14.labelMap
        out.r14.testDataset = .ok out.r22.predictedLabels ∧
    L.classificationReport out.r22.trueLabels out.r22.predictedLabels 2 =
      .ok out.r22.report := by
  obtain ⟨t9, t14, t16, t18, t22, t24, h9, h14, h16, h18, h22, h24, hmc,
    htr⟩ := notebookRun_ok L q g0 dp cd tr out h
  obtain ⟨hfn, hdf, ht9, hdl, hparse, hsplit⟩ := cell9_ok _ _ _ _ _ _ h9
  obtain ⟨hctor, hlm, htrd, htrl, hted, htel, ht14⟩ :=
    cell14_ok _ _ _ _ _ _ h14
  obtain ⟨⟨m0, hm0, hfit⟩, ht16⟩ := cell16_ok _ _ _ _ _ _ h16
  obtain ⟨hpred, ht18⟩ := cell18_ok _ _ _ _ _ h18
  obtain ⟨htl, hpl, hrep, ht22⟩ := cell20to22_ok _ _ _ _ _ _ _ h22
  have hseed : (configuration q).randomSeed = 100 := by cases q <;> rfl
  have hmax : (configuration q).maxSeqLength = 200 := by cases q <;> rfl
  have htag : (configuration q).trailingPieceTag = "X" := by
    cases q <;> rfl
  have hbatch : (configuration q).batchSize = 16 := by cases q <;> rfl
  rw [hseed] at hsplit
  rw [hmax, htag] at hted
  rw [hbatch] at htel
  refine ⟨?_, hsplit, ?_, hted, htel, hpred, htl, hpl, hrep⟩
  · have hv : (configuration q).testDataFraction = mkRat 3 10 := by
      cases q <;> rfl
    rw [hv, Rat.mkRat_eq_div]
    norm_num
  · exact (List.nodup_append.mp
      (by rw [List.take_append_drop]; exact hperm)).2.2

/-- Witness for C5: in the demonstration run the test indices of the
shuffle are disjoint from the training indices. -/
theorem C5_held_out_split_witness :
    List.Disjoint
      ((demoLibs.permFn 100 demoOut.r9.sentenceList.length).take
        (testSetSize (configuration false).testDataFraction
          demoOut.r9.sentenceList.length))
      ((demoLibs.permFn 100 demoOut.r9.sentenceList.length).drop
        (testSetSize (configuration false).testDataFraction
          demoOut.r9.sentenceList.length)) :=
  (C5_held_out_split demoLibs false 0 ("d") ("c") demoTrace demoOut
    demoRun_eq (by decide)).2.2.1

/-! ## Claim C7: sub-sampling preserves the token/label pairing -/

/-- Selecting by in-range indices returns one element per index. -/
theorem indexSelect_length {α : Type} (idxs : List Nat) (pop : List α)
    (hval : ∀ i ∈ idxs, i < pop.length) :
    (indexSelect idxs pop).length = idxs.length := by
  induction idxs with
  | nil => rfl
  | cons i rest ih =>
    have hi : i < pop.length := hval i (List.mem_cons_self _ _)
    have hr : ∀ j ∈ rest, j < pop.length := fun j hj =>
      hval j (List.mem_cons_of_mem _ hj)
    unfold indexSelect
    simp only [List.filterMap_cons]
    rw [List.get?_eq_get hi]
    simpa [indexSelect] using ih hr

/-- Every selected element comes from the population. -/
theorem indexSelect_subset {α : Type} (idxs : List Nat) (pop : List α) :
    ∀ x ∈ indexSelect idxs pop, x ∈ pop := by
  intro x hx
  obtain ⟨i, hi, hg⟩ := List.mem_filterMap.mp hx
  exact List.get?_mem hg

/-- C7: the sub-sampling step preserves the token/label pairing.  For any
index choice `random.sample` can make (in-range indices, as many as
`sample_size = int(SAMPLE_RATIO * len(sentence_list))`), if the
`zip`/`sample`/`unzip` glue of cell 9 produces `(sl2, ll2)`, then both
lists have length `sample_size`, zipping them back gives exactly the
sampled pairs, and every retained (sentence, labels) pair is a pair of the
original parsed data — each retained sentence keeps exactly the label
sequence it was paired with. -/
theorem C7_subsample_pairing (q : Bool) (sl : List Sentence)
    (ll : List Labels) (idxs : List Nat) (sl2 : List Sentence)
    (ll2 : List Labels) (hlen : sl.length = ll.length)
    (hval : ∀ i ∈ idxs, i < sl.length)
    (hk : idxs.length = sampleSize (configuration q).sampleRatio sl.length)
    (hres : pyUnzip (indexSelect idxs (List.zip sl ll)) = .ok (sl2, ll2)) :
    sl2.length = sampleSize (configuration q).sampleRatio sl.length ∧
    ll2.length = sampleSize (configuration q).sampleRatio sl.length ∧
    List.zip sl2 ll2 = indexSelect idxs (List.zip sl ll) ∧
    ∀ p ∈ List.zip sl2 ll2, p ∈ List.zip sl ll := by
  have hplen : (List.zip sl ll).length = sl.length := by
    simp [List.length_zip]
    omega
  have hval' : ∀ i ∈ idxs, i < (List.zip sl ll).length := by
    intro i hi
    rw [hplen]
    exact hval i hi
  have hsel := indexSelect_length idxs (List.zip sl ll) hval'
  unfold pyUnzip at hres
  split at hres
  · simp at hres
  · rename_i hne
    have huz : (indexSelect idxs (List.zip sl ll)).unzip = (sl2, ll2) :=
      Except.ok.inj hres
    have hzip : List.zip sl2 ll2 = indexSelect idxs (List.zip sl ll) := by
      rw [show sl2 = (indexSelect idxs (List.zip sl ll)).unzip.1 by
            rw [huz],
        show ll2 = (indexSelect idxs (List.zip sl ll)).unzip.2 by rw [huz]]
      exact List.zip_unzip _
    refine ⟨?_, ?_, hzip, ?_⟩
    · rw [show sl2 = (indexSelect idxs (List.zip sl ll)).unzip.1 by
        rw [huz]]
      simp [List.unzip_eq_map]
      omega
    · rw [show ll2 = (indexSelect idxs (List.zip sl ll)).unzip.2 by
        rw [huz]]
      simp [List.unzip_eq_map]
      omega
    · intro p hp
      rw [hzip] at hp
      exact indexSelect_subset idxs (List.zip sl ll) p hp

/-- Witness for C7 on a concrete two-sentence dataset with the identity
sample. -/
theorem C7_subsample_pairing_witness :
    ([["a"], ["b"]] : List Sentence).length =
      sampleSize (configuration false).sampleRatio
        ([["a"], ["b"]] : List Sentence).length :=
  (C7_subsample_pairing false [["a"], ["b"]] [["O"], ["B"]] [0, 1]
    [["a"], ["b"]] [["O"], ["B"]] rfl (by decide) (by decide) (by rfl)).1

/-! ## Claims C3 and C9: the metrics-recording cell -/

/-- `pyIndex` succeeds exactly on in-range indices, returning that entry. -/
theorem pyIndex_eq_ok {α : Type} {l : List α} {i : Nat} {x : α} :
    pyIndex l i = .ok x ↔ l.get? i = some x := by
  unfold pyIndex
  split <;> rename_i heq <;> rw [heq] <;> simp

/-- C3: the metrics cell records exactly three scalar metrics, glued under
the names "precision", "recall", and "f1", whose values are the floats
parsed from whitespace-separated fields 2, 3, and 4 of the second-to-last
newline-separated line of the classification-report string. -/
theorem C3_metrics_glued (report line f2 f3 f4 : String) (p r f : ℚ)
    (hline : pyNeg2 (pySplitChar report '\n') = .ok line)
    (h2 : pyIndex (pySplitWS line) 2 = .ok f2) (hp : pyFloat f2 = some p)
    (h3 : pyIndex (pySplitWS line) 3 = .ok f3) (hr : pyFloat f3 = some r)
    (h4 : pyIndex (pySplitWS line) 4 = .ok f4) (hf : pyFloat f4 = some f) :
    metricsCell report =
      ([("precision", p), ("recall", r), ("f1", f)], .ok ()) := by
  simp [metricsCell, hline, h2, hp, h3, hr, h4, hf]

/-- Witness for C3 on a concrete report whose macro-average row is
`macro avg 0.78 0.82 0.80 1069`. -/
theorem C3_metrics_glued_witness :
    metricsCell ("h\nmacro avg 0.78 0.82 0.80 1069\n") =
      ([("precision", mkRat 39 50), ("recall", mkRat 41 50),
        ("f1", mkRat 4 5)], .ok ()) :=
  C3_metrics_glued ("h\nmacro avg 0.78 0.82 0.80 1069\n")
    ("macro avg 0.78 0.82 0.80 1069") ("0.78") ("0.82") ("0.80")
    (mkRat 39 50) (mkRat 41 50) (mkRat 4 5) (by rfl) (by rfl) (by rfl)
    (by rfl) (by rfl) (by rfl) (by rfl)

/-- Counterexample to C9 as stated: on the report `"x\na b 0.5 z 1.0\n"`
the shape precondition fails (field 3 of the second-to-last line does not
parse), the cell raises a float-parse error — but the claim's "no metric is
recorded" is false: "precision" has already been glued. -/
theorem C9_counterexample :
    reportShapeOK ("x\na b 0.5 z 1.0\n") = false ∧
    (metricsCell ("x\na b 0.5 z 1.0\n")).1 = [("precision", mkRat 1 2)] ∧
    (metricsCell ("x\na b 0.5 z 1.0\n")).1 ≠ [] ∧
    (metricsCell ("x\na b 0.5 z 1.0\n")).2 =
      .error ("ValueError: could not convert string to float") := by
  refine ⟨rfl, rfl, ?_, rfl⟩
  decide

/-- C9 as amended: if the second-to-last newline-separated line of the
report has at least five whitespace-separated fields and fields 2, 3, and 4
each parse as floats, the three glue calls succeed; for any report string
violating this shape the cell raises an error (index out of range or
float-parse failure) and fewer than three metrics are recorded — the
metrics glued before the first failing field (possibly "precision", or
"precision" and "recall") remain recorded. -/
theorem C9_amended_metrics_precondition (report : String) :
    (reportShapeOK report = true → (metricsCell report).2 = .ok ()) ∧
    (reportShapeOK report = false →
      (∃ e, (metricsCell report).2 = .error e) ∧
      (metricsCell report).1.length < 3) := by
  constructor
  · intro hs
    unfold reportShapeOK at hs
    split at hs
    · simp at hs
    · rename_i line heq
      simp only [Bool.and_eq_true, decide_eq_true_eq,
        Option.isSome_iff_exists] at hs
      obtain ⟨⟨⟨h5, p, hp⟩, r, hr⟩, f, hf⟩ := hs
      obtain ⟨f2, h2, hp2⟩ := Option.bind_eq_some.mp hp
      obtain ⟨f3, h3, hp3⟩ := Option.bind_eq_some.mp hr
      obtain ⟨f4, h4, hp4⟩ := Option.bind_eq_some.mp hf
      simp [metricsCell, heq, pyIndex_eq_ok.mpr h2, hp2,
        pyIndex_eq_ok.mpr h3, hp3, pyIndex_eq_ok.mpr h4, hp4]
  · intro hs
    unfold reportShapeOK at hs
    unfold metricsCell
    split at hs
    · rename_i heq
      simp [heq]
    · rename_i line heq
      simp only [heq]
      split
      · simp
      · rename_i f2 h2
        split
        · simp
        · rename_i p hp2
          split
          · simp
          · rename_i f3 h3
            split
            · simp
            · rename_i r hp3
              split
              · simp
              · rename_i f4 h4
                split
                · simp
                · rename_i f hp4
                  exfalso
                  rw [pyIndex_eq_ok] at h2 h3 h4
                  obtain ⟨hlt, -⟩ := List.get?_eq_some.mp h4
                  have h5 : 5 ≤ (pySplitWS line).length := by omega
                  have h2g : (pySplitWS line)[2]? = some f2 := by
                    rw [← List.get?_eq_getElem?]
                    exact h2
                  have h3g : (pySplitWS line)[3]? = some f3 := by
                    rw [← List.get?_eq_getElem?]
                    exact h3
                  have h4g : (pySplitWS line)[4]? = some f4 := by
                    rw [← List.get?_eq_getElem?]
                    exact h4
                  simp [h5, h2g, h3g, h4g] at hs
                  have hc := hs (by rw [hp2]; simp) (by rw [hp3]; simp)
                  rw [hp4] at hc
                  simp at hc

/-! ## Claim C6: branching in the configuration-to-preprocessing glue -/

/-- Counterexample to C6 as stated: the code from configuration through
preprocessing does contain a conditional — `if QUICK_RUN:` updates
`SAMPLE_RATIO` — and the result of the glue depends on it: on the same
ten-sentence dataset the sub-sampled sentence list has length 1 when
`QUICK_RUN` is `True` and length 10 when it is `False`. -/
theorem C6_counterexample :
    ((cell9 demoLibs10 (configuration true) 0 ("d")).2.toOption.map
      (fun r => r.sentenceList.length)) = some 1 ∧
    ((cell9 demoLibs10 (configuration false) 0 ("d")).2.toOption.map
      (fun r => r.sentenceList.length)) = some 10 ∧
    ((cell9 demoLibs10 (configuration true) 0 ("d")).2.toOption.map
        (fun r => r.sentenceList.length)) ≠
      ((cell9 demoLibs10 (configuration false) 0 ("d")).2.toOption.map
        (fun r => r.sentenceList.length)) := by
  refine ⟨rfl, rfl, ?_⟩
  decide

/-- C6 as amended: the read-CoNLL/split/preprocess glue itself is
straight-line — the only conditional in the notebook's own code up to
preprocessing is the `if QUICK_RUN:` update in the configuration cell, and
the glue's result depends on that condition only through the configured
`SAMPLE_RATIO`: cell 9 equals the unconditional pipeline `dataPrepCore`
applied to the configured ratio, and cell 14 (preprocessing and
dataloaders) does not depend on `QUICK_RUN` at all. -/
theorem C6_amended_straight_line (L : Libs) (q : Bool) (g0 : Nat)
    (dp cd : String) (r9 : R9) :
    cell9 L (configuration q) g0 dp =
      dataPrepCore L (configuration q).sampleRatio g0 dp ∧
    cell14 L (configuration q) cd r9 = cell14 L (configuration false) cd r9 := by
  cases q <;> exact ⟨rfl, rfl⟩

/-- Witness for the amended C9: a well-shaped report succeeds, and the
malformed report raises with fewer than three metrics recorded. -/
theorem C9_amended_metrics_precondition_witness :
    (metricsCell ("h\nmacro avg 0.78 0.82 0.80 1069\n")).2 = .ok () ∧
    ((∃ e, (metricsCell ("x\na b 0.5 z 1.0\n")).2 = .error e) ∧
      (metricsCell ("x\na b 0.5 z 1.0\n")).1.length < 3) :=
  ⟨(C9_amended_metrics_precondition
      ("h\nmacro avg 0.78 0.82 0.80 1069\n")).1 (by rfl),
    (C9_amended_metrics_precondition ("x\na b 0.5 z 1.0\n")).2 (by rfl)⟩

end NerNotebook
